import Mathlib

/-!
Verification of the Griber weather-query service.

The Go source is embedded shallowly: real (`float64`) arithmetic is
modelled by `ℚ` (the grid geometry uses only quarter-degree steps, so all
intermediate values of interest are rational), Go `int`/`int64` by `ℤ`,
fallible functions by `Except String` and functions that may also panic by
`GoResult`.  Side-effecting steps (HTTP, the filesystem, the external
decoder) are modelled by explicit environments supplying their outcomes.
-/

namespace Griber

/-- Floor of a rational, in executable form (`Int./` is Euclidean). -/
def ratFloor (q : ℚ) : ℤ := q.num / q.den

/-- Ceiling of a rational, in executable form. -/
def ratCeil (q : ℚ) : ℤ := -ratFloor (-q)

theorem ratFloor_eq (q : ℚ) : ratFloor q = ⌊q⌋ := Rat.floor_def.symm

theorem ratCeil_eq (q : ℚ) : ratCeil q = ⌈q⌉ := by
  unfold ratCeil
  rw [ratFloor_eq, Int.floor_neg, neg_neg]

/-- Go `math.Trunc`-style truncation of a rational towards zero
(`float64` → integer conversion, and the `Trunc` inside `math.Mod`). -/
def goTrunc (q : ℚ) : ℤ :=
  if 0 ≤ q then ratFloor q else ratCeil q

/-- Go `math.Round`: round to nearest, halves away from zero. -/
def goRound (q : ℚ) : ℤ :=
  if 0 ≤ q then ratFloor (q + 1/2) else ratCeil (q - 1/2)

theorem goTrunc_eq (q : ℚ) :
    goTrunc q = if 0 ≤ q then ⌊q⌋ else ⌈q⌉ := by
  unfold goTrunc
  rw [ratFloor_eq, ratCeil_eq]

theorem goRound_eq (q : ℚ) :
    goRound q = if 0 ≤ q then ⌊q + 1/2⌋ else ⌈q - 1/2⌉ := by
  unfold goRound
  rw [ratFloor_eq, ratCeil_eq]

/-- Go `math.Mod x y = x - y*Trunc(x/y)` (result has the sign of `x`). -/
def goMod (x y : ℚ) : ℚ :=
  x - y * (goTrunc (x / y) : ℚ)

/-! Grid geometry constants (src/unnamed/part_003). -/

def Ni : ℤ := 1440
def Nj : ℤ := 721
def LatFirst : ℚ := 90
def LatStep : ℚ := 1/4
def LonFirst : ℚ := 180
def LonStep : ℚ := 1/4
def TotalPoints : ℤ := 1038240

/-- The `normalizedLon` step of `GetIndexForCoord`:
`math.Mod(targetLon, 360)`, then `+360` if negative. -/
def normalizedLonGo (targetLon : ℚ) : ℚ :=
  let m := goMod targetLon 360
  if m < 0 then m + 360 else m

/-- The `lonOffset` step of `GetIndexForCoord`: offset from `LonFirst`,
wrapping negative offsets by adding 360. -/
def lonOffsetGo (normalizedLon : ℚ) : ℚ :=
  if normalizedLon - LonFirst < 0 then normalizedLon - LonFirst + 360
  else normalizedLon - LonFirst

/-- The column computation of `GetIndexForCoord`:
`i := int(math.Round(lonOffset / LonStep)) % Ni` (Go `%` truncates). -/
def lonIndexGo (targetLon : ℚ) : ℤ :=
  (goRound (lonOffsetGo (normalizedLonGo targetLon) / LonStep)).tmod Ni

/-- The two sequential clamps of `GetIndexForCoord` on the row index:
`j < 0 → 0`, then `j >= Nj → Nj - 1`, applied in that order. -/
def latClampGo (j0 : ℤ) : ℤ :=
  if Nj ≤ (if j0 < 0 then 0 else j0) then Nj - 1
  else (if j0 < 0 then 0 else j0)

/-- The row computation of `GetIndexForCoord`:
`j := int(math.Round((LatFirst - targetLat) / LatStep))`, then the clamps. -/
def latIndexGo (targetLat : ℚ) : ℤ :=
  latClampGo (goRound ((LatFirst - targetLat) / LatStep))

/-- Function `GetIndexForCoord` (src/unnamed/part_003): flat index `j*Ni + i`
with the final `index < 0 || index >= TotalPoints` safety check. -/
def GetIndexForCoord (targetLat targetLon : ℚ) : Except String ℤ :=
  if latIndexGo targetLat * Ni + lonIndexGo targetLon < 0 ∨
      TotalPoints ≤ latIndexGo targetLat * Ni + lonIndexGo targetLon then
    Except.error "index out of range"
  else
    Except.ok (latIndexGo targetLat * Ni + lonIndexGo targetLon)

/-! Basic facts about the longitude normalization. -/

theorem normalizedLonGo_eq_fract (L : ℚ) :
    normalizedLonGo L = 360 * Int.fract (L / 360) := by
  unfold normalizedLonGo goMod
  rw [goTrunc_eq]
  rcases le_or_lt 0 (L / 360) with h | h
  · simp only [if_pos h]
    have hfr : L - 360 * (⌊L / 360⌋ : ℚ) = 360 * Int.fract (L / 360) := by
      rw [Int.fract]
      ring
    rw [hfr]
    have hnn : ¬ (360 * Int.fract (L / 360) < 0) := by
      have := Int.fract_nonneg (L / 360)
      nlinarith
    rw [if_neg hnn]
  · rw [if_neg (not_le.mpr h)]
    rcases eq_or_ne (Int.fract (L / 360)) 0 with hf | hf
    · have hceil : (⌈L / 360⌉ : ℤ) = ⌊L / 360⌋ := by
        have : (L / 360) = (⌊L / 360⌋ : ℚ) := by
          have := Int.fract_add_floor (L / 360)
          rw [hf] at this
          linarith [this]
        rw [this, Int.ceil_intCast, Int.floor_intCast]
      rw [hceil]
      have hval : L - 360 * (⌊L / 360⌋ : ℚ) = 360 * Int.fract (L / 360) := by
        rw [Int.fract]; ring
      rw [hval, hf]
      norm_num
    · have hfrpos : 0 < Int.fract (L / 360) :=
        lt_of_le_of_ne (Int.fract_nonneg _) (Ne.symm hf)
      have hceil : (⌈L / 360⌉ : ℤ) = ⌊L / 360⌋ + 1 := by
        rw [Int.ceil_eq_iff]
        constructor
        · push_cast
          have := Int.fract_add_floor (L / 360)
          have : (⌊L / 360⌋ : ℚ) < L / 360 := by
            nlinarith [Int.fract_add_floor (L / 360)]
          linarith
        · push_cast
          have := Int.fract_lt_one (L / 360)
          nlinarith [Int.fract_add_floor (L / 360)]
      rw [hceil]
      have hval : L - 360 * ((⌊L / 360⌋ : ℚ) + 1) =
          360 * Int.fract (L / 360) - 360 := by
        rw [Int.fract]; ring
      push_cast
      rw [hval]
      have hlt : 360 * Int.fract (L / 360) - 360 < 0 := by
        have := Int.fract_lt_one (L / 360)
        nlinarith
      rw [if_pos hlt]
      ring

theorem normalizedLonGo_nonneg (L : ℚ) : 0 ≤ normalizedLonGo L := by
  rw [normalizedLonGo_eq_fract]
  have := Int.fract_nonneg (L / 360)
  positivity

theorem normalizedLonGo_lt (L : ℚ) : normalizedLonGo L < 360 := by
  rw [normalizedLonGo_eq_fract]
  have := Int.fract_lt_one (L / 360)
  nlinarith

theorem normalizedLonGo_wrap (L : ℚ) :
    normalizedLonGo (L + 360) = normalizedLonGo L := by
  rw [normalizedLonGo_eq_fract, normalizedLonGo_eq_fract]
  have h : (L + 360) / 360 = L / 360 + (1 : ℤ) := by
    push_cast; field_simp
  rw [h, Int.fract_add_int]

theorem goRound_nonneg (q : ℚ) (h : 0 ≤ q) : 0 ≤ goRound q := by
  rw [goRound_eq, if_pos h]
  exact Int.le_floor.mpr (by push_cast; linarith)

theorem goRound_le (q : ℚ) (B : ℤ) (h0 : 0 ≤ q) (h : q + 1/2 < (B : ℚ) + 1) :
    goRound q ≤ B := by
  rw [goRound_eq, if_pos h0]
  have hlt : ⌊q + 1/2⌋ < B + 1 := Int.floor_lt.mpr (by push_cast; linarith)
  omega

theorem lonOffsetGo_bounds (n : ℚ) (h0 : 0 ≤ n) (h1 : n < 360) :
    0 ≤ lonOffsetGo n ∧ lonOffsetGo n < 360 := by
  unfold lonOffsetGo LonFirst
  split_ifs with h
  · constructor <;> linarith
  · constructor <;> linarith

theorem lonIndexGo_bounds (L : ℚ) : 0 ≤ lonIndexGo L ∧ lonIndexGo L < Ni := by
  obtain ⟨ho0, _⟩ := lonOffsetGo_bounds _ (normalizedLonGo_nonneg L)
    (normalizedLonGo_lt L)
  unfold lonIndexGo
  have hq0 : 0 ≤ lonOffsetGo (normalizedLonGo L) / LonStep := by
    unfold LonStep; positivity
  have hr0 : 0 ≤ goRound (lonOffsetGo (normalizedLonGo L) / LonStep) :=
    goRound_nonneg _ hq0
  rw [Int.tmod_eq_emod hr0 (by norm_num [Ni])]
  exact ⟨Int.emod_nonneg _ (by norm_num [Ni]),
    Int.emod_lt_of_pos _ (by norm_num [Ni])⟩

theorem latIndexGo_bounds (lat : ℚ) (h0 : -90 ≤ lat) (h1 : lat ≤ 90) :
    0 ≤ latIndexGo lat ∧ latIndexGo lat < Nj := by
  have hq0 : 0 ≤ (LatFirst - lat) / LatStep := by
    unfold LatFirst LatStep
    have : (0 : ℚ) ≤ 90 - lat := by linarith
    positivity
  have hqe : (LatFirst - lat) / LatStep = (90 - lat) * 4 := by
    unfold LatFirst LatStep; field_simp
  have hj0 : 0 ≤ goRound ((LatFirst - lat) / LatStep) := goRound_nonneg _ hq0
  have hj1 : goRound ((LatFirst - lat) / LatStep) ≤ 720 := by
    apply goRound_le _ _ hq0
    rw [hqe]
    push_cast
    linarith
  unfold latIndexGo latClampGo Nj
  rw [if_neg (not_lt.mpr hj0), if_neg (by omega)]
  omega

theorem getIndexForCoord_ok_aux (lat lon : ℚ)
    (h0 : -90 ≤ lat) (h1 : lat ≤ 90) :
    ∃ k : ℤ, GetIndexForCoord lat lon = Except.ok k ∧
      0 ≤ k ∧ k < TotalPoints := by
  obtain ⟨hi0, hi1⟩ := lonIndexGo_bounds lon
  obtain ⟨hj0, hj1⟩ := latIndexGo_bounds lat h0 h1
  simp only [Ni, Nj, TotalPoints] at hi0 hi1 hj0 hj1 ⊢
  refine ⟨latIndexGo lat * 1440 + lonIndexGo lon, ?_, by omega, by omega⟩
  unfold GetIndexForCoord
  simp only [Ni, TotalPoints]
  rw [if_neg (by push_neg; omega)]

/-- Claim C1: For every latitude in `[-90, 90]` and every longitude, the grid
index mapper `GetIndexForCoord` succeeds and returns a zero-based index in
`[0, TotalPoints)`; its `IndexOutOfRange` error branch is unreachable for
such inputs under the fixed geometry constants. -/
theorem getIndexForCoord_total_in_range (lat lon : ℚ)
    (h0 : -90 ≤ lat) (h1 : lat ≤ 90) :
    ∃ k : ℤ, GetIndexForCoord lat lon = Except.ok k ∧
      0 ≤ k ∧ k < TotalPoints :=
  getIndexForCoord_ok_aux lat lon h0 h1

theorem normalizedLonGo_zero : normalizedLonGo 0 = 0 := by
  rw [normalizedLonGo_eq_fract]
  norm_num

theorem lonIndexGo_zero : lonIndexGo 0 = 720 := by
  unfold lonIndexGo
  rw [normalizedLonGo_zero]
  have h2 : lonOffsetGo 0 = 180 := by
    unfold lonOffsetGo LonFirst
    rw [if_pos (by norm_num)]
    norm_num
  rw [h2]
  have h3 : (180 : ℚ) / LonStep = 720 := by unfold LonStep; norm_num
  rw [h3]
  have h4 : goRound 720 = 720 := by
    rw [goRound_eq, if_pos (by norm_num)]
    rw [Int.floor_eq_iff]
    constructor <;> norm_num
  rw [h4]
  decide

theorem latIndexGo_zero : latIndexGo 0 = 360 := by
  unfold latIndexGo
  have h1 : (LatFirst - 0) / LatStep = 360 := by
    unfold LatFirst LatStep; norm_num
  rw [h1]
  have h2 : goRound 360 = 360 := by
    rw [goRound_eq, if_pos (by norm_num)]
    rw [Int.floor_eq_iff]
    constructor <;> norm_num
  rw [h2]
  decide

/-- Concrete evaluation of the grid mapper at the origin. -/
theorem getIndexForCoord_zero_zero : GetIndexForCoord 0 0 = Except.ok 519120 := by
  unfold GetIndexForCoord
  rw [lonIndexGo_zero, latIndexGo_zero]
  rw [if_neg (by decide)]
  norm_num [Ni]

/-- Witness for C1 at the concrete coordinate `(0, 0)`. -/
theorem getIndexForCoord_total_in_range_witness :
    (-90 : ℚ) ≤ 0 ∧ (0 : ℚ) ≤ 90 ∧
      ∃ k : ℤ, GetIndexForCoord 0 0 = Except.ok k ∧ 0 ≤ k ∧ k < TotalPoints :=
  ⟨by norm_num, by norm_num,
    getIndexForCoord_total_in_range 0 0 (by norm_num) (by norm_num)⟩

/-- Claim C5: Longitude wrap invariance: `GetIndexForCoord(lat, L)` and
`GetIndexForCoord(lat, L + 360)` return identical results, for every
latitude and every longitude `L`. -/
theorem getIndexForCoord_lon_wrap (lat L : ℚ) :
    GetIndexForCoord lat (L + 360) = GetIndexForCoord lat L := by
  have h : lonIndexGo (L + 360) = lonIndexGo L := by
    unfold lonIndexGo
    rw [normalizedLonGo_wrap]
  unfold GetIndexForCoord
  rw [h]

/-! ## JSON values and Go computations that may panic -/

/-- Result of a Go computation: a value, an `error` return, or a runtime
panic (`crash`), as caused by an unchecked type assertion `x.(T)` or an
out-of-range slice index. -/
inductive GoResult (α : Type) where
  | ok (a : α)
  | err (e : String)
  | crash
deriving DecidableEq

def GoResult.bind {α β : Type} : GoResult α → (α → GoResult β) → GoResult β
  | .ok a, f => f a
  | .err e, _ => .err e
  | .crash, _ => .crash

/-- A parsed JSON value, the shape `encoding/json` produces for
`interface\x7b\x7d`: numbers become `float64` (modelled by `ℚ`). -/
inductive JValue where
  | null
  | bool (b : Bool)
  | num (q : ℚ)
  | str (s : String)
  | arr (elems : List JValue)
  | obj (fields : List (String × JValue))

def JValue.isNum : JValue → Bool
  | .num _ => true
  | _ => false

/-- Go map lookup on an unmarshalled JSON object (`m["k"]`); a missing key
yields the `nil` interface, modelled as `none`. -/
def jlookup : List (String × JValue) → String → Option JValue
  | [], _ => none
  | (k, v) :: rest, key => if key = k then some v else jlookup rest key

/-- Unchecked Go type assertion `x.(string)`: panics unless the dynamic
type is `string` (in particular on the `nil` from a missing map key). -/
def assertString : Option JValue → GoResult String
  | some (.str s) => .ok s
  | _ => .crash

/-- Unchecked Go type assertion `x.(float64)`. -/
def assertNum : Option JValue → GoResult ℚ
  | some (.num q) => .ok q
  | _ => .crash

/-- Unchecked Go type assertion `x.([]interface\x7b\x7d)`. -/
def assertArr : Option JValue → GoResult (List JValue)
  | some (.arr xs) => .ok xs
  | _ => .crash

/-- Unchecked Go type assertion `x.(map[string]interface\x7b\x7d)`. -/
def assertObj : Option JValue → GoResult (List (String × JValue))
  | some (.obj fs) => .ok fs
  | _ => .crash

/-- The inner conversion loop of `unwarpGribRawJsonValue`:
`values[i] = v.(float64)` for each element, panicking at the first
element that is not a number. -/
def valuesToFloats : List JValue → GoResult (List ℚ)
  | [] => .ok []
  | v :: rest =>
    (assertNum (some v)).bind fun q =>
    (valuesToFloats rest).bind fun qs =>
    .ok (q :: qs)

/-- Go interface comparison `m["key"] == "values"`: true exactly when the
dynamic type is `string` and the value is `"values"` (a missing key gives
`nil`, which is simply unequal). -/
def isValuesKey : Option JValue → Bool
  | some (JValue.str s) => s == "values"
  | _ => false

/-- The message loop of `unwarpGribRawJsonValue`: every element is
asserted to be an object; on `key == "values"` the `value` field is
asserted to be an array and converted (the last match wins). -/
def unwarpLoop : List JValue → Option (List ℚ) → GoResult (Option (List ℚ))
  | [], values => .ok values
  | message :: rest, values =>
    (assertObj (some message)).bind fun m =>
    if isValuesKey (jlookup m "key") then
      (assertArr (jlookup m "value")).bind fun valueInterface =>
      (valuesToFloats valueInterface).bind fun vs =>
      unwarpLoop rest (some vs)
    else
      unwarpLoop rest values

/-- Function `unwarpGribRawJsonValue` (src/unnamed/part_003), applied to the
parsed form of its raw-string argument: `none` stands for a string that
is not valid JSON, and a non-object document also makes
`json.Unmarshal` into a map return an error.  After the successful
unmarshal, `jsonHolder["messages"].([]interface\x7b\x7d)[0]` is a chain of
unchecked assertions and an unchecked index, each of which panics on a
document of the wrong shape.  When no message carries `key == "values"`
the Go function returns the nil slice and a nil error (`ok []`). -/
def unwarpGribRawJsonValue (doc : Option JValue) : GoResult (List ℚ) :=
  match doc with
  | some (.obj jsonHolder) =>
    (assertArr (jlookup jsonHolder "messages")).bind fun outer =>
    match outer with
    | [] => GoResult.crash
    | first :: _ =>
      (assertArr (some first)).bind fun messages =>
      (unwarpLoop messages none).bind fun values =>
      .ok (values.getD [])
  | _ => .err "fail to parse Json"

/-- The decoder-output family of C8: a well-shaped `messages` document
whose single message is `\x7b"key": "values", "value": vs\x7d`. -/
def valuesDoc (vs : List JValue) : Option JValue :=
  some (.obj [("messages",
    .arr [.arr [.obj [("key", .str "values"), ("value", .arr vs)]]])])

theorem valuesToFloats_crash (vs : List JValue)
    (h : ∃ v ∈ vs, v.isNum = false) : valuesToFloats vs = .crash := by
  induction vs with
  | nil => simp at h
  | cons v rest ih =>
    obtain ⟨w, hw, hwn⟩ := h
    rcases List.mem_cons.mp hw with rfl | hwrest
    · cases w <;> simp_all [valuesToFloats, assertNum, GoResult.bind, JValue.isNum]
    · cases v with
      | num q =>
        simp only [valuesToFloats, assertNum, GoResult.bind]
        rw [ih ⟨w, hwrest, hwn⟩]
      | _ => simp [valuesToFloats, assertNum, GoResult.bind]

/-- Claim C8 counterexample: A decoder output whose `values` array holds a
string is observed: `unwarpGribRawJsonValue` panics (`crash`) instead of
returning an error result, contradicting the claim that any non-float
value yields a fatal parse *error*. -/
theorem unwarp_nonfloat_crash_counterexample :
    unwarpGribRawJsonValue (valuesDoc [JValue.str "x"]) = GoResult.crash ∧
      ∀ e, unwarpGribRawJsonValue (valuesDoc [JValue.str "x"]) ≠
        GoResult.err e := by
  constructor
  · decide
  · intro e h
    rw [show unwarpGribRawJsonValue (valuesDoc [JValue.str "x"]) =
      GoResult.crash from by decide] at h
    exact GoResult.noConfusion h

/-- Claim C8 amended: For every decoder output of the `values`-message
shape in which some element of the `values` array is not a
floating-point number, `unwarpGribRawJsonValue` crashes (unchecked
type-assertion panic); it does not return an error result and does not
return successfully. -/
theorem unwarp_nonfloat_crashes (vs : List JValue)
    (h : ∃ v ∈ vs, v.isNum = false) :
    unwarpGribRawJsonValue (valuesDoc vs) = GoResult.crash := by
  have hc := valuesToFloats_crash vs h
  simp [unwarpGribRawJsonValue, valuesDoc, unwarpLoop, jlookup,
    assertArr, assertObj, isValuesKey, GoResult.bind, hc]

/-- Witness for the amended C8 at the concrete array `["x"]`. -/
theorem unwarp_nonfloat_crashes_witness :
    (∃ v ∈ [JValue.str "x"], v.isNum = false) ∧
      unwarpGribRawJsonValue (valuesDoc [JValue.str "x"]) = GoResult.crash :=
  ⟨by decide, unwarp_nonfloat_crashes [JValue.str "x"] (by decide)⟩

/-! ## The Run Index Resolver: `parseIndexResponse` (src/fetchData.go) -/

/-- One GRIB chunk descriptor: `ParamName`, `Offset`, `Length`
(Go `int64`, produced by `int64(x.(float64))`, truncating toward zero). -/
structure GribChunkInfo where
  ParamName : String
  Offset : ℤ
  Length : ℤ
deriving DecidableEq

/-- One line of the newline-delimited index document after
`json.Unmarshal` into `IndexData` (`map[string]interface\x7b\x7d`):
`bad` is a line that fails to unmarshal (not valid JSON, or valid JSON
that is not an object), `good` is the resulting object. -/
inductive JLine where
  | bad
  | good (fields : List (String × JValue))

/-- The scanner loop of `parseIndexResponse`.  A `bad` line is a hard
failure for the whole resolve.  On a `good` line the code evaluates
`lineData["param"].(string)` (unchecked, panics when the key is missing
or not a string), short-circuits `levtype` unless `param` matches, and on
a full match extracts `_offset` and `_length` via unchecked `.(float64)`
assertions. -/
def parseIndexLoop : List JLine → List GribChunkInfo →
    GoResult (List GribChunkInfo)
  | [], data => .ok data
  | .bad :: _, _ => .err "fail to unmarshal index line"
  | .good lineData :: rest, data =>
    (assertString (jlookup lineData "param")).bind fun param =>
    if param = "10u" ∨ param = "10v" then
      (assertString (jlookup lineData "levtype")).bind fun levtype =>
      if levtype = "sfc" then
        (assertNum (jlookup lineData "_offset")).bind fun off =>
        (assertNum (jlookup lineData "_length")).bind fun len =>
        parseIndexLoop rest (data ++ [⟨param, goTrunc off, goTrunc len⟩])
      else
        parseIndexLoop rest data
    else
      parseIndexLoop rest data

/-- Function `parseIndexResponse` (src/fetchData.go): scan all lines, starting
from the empty (nil) descriptor slice.  Note that a run with zero
matching lines returns `ok []`: there is no emptiness check. -/
def parseIndexResponse (lines : List JLine) : GoResult (List GribChunkInfo) :=
  parseIndexLoop lines []

/-- Whether the JSON object value is a string. -/
def isStrVal : Option JValue → Bool
  | some (JValue.str _) => true
  | _ => false

theorem assertString_crash (o : Option JValue) (h : isStrVal o = false) :
    assertString o = GoResult.crash := by
  match o with
  | none => rfl
  | some v => cases v <;> simp_all [isStrVal, assertString]

/-- Claim C9: `parseIndexResponse` is not total over lines that are valid
JSON objects of the wrong shape: on any line whose `"param"` key is
missing or not a string, the unchecked type assertion panics (`crash`)
instead of returning an error, regardless of the remaining lines. -/
theorem parseIndexResponse_wrong_shape_crash
    (fields : List (String × JValue)) (rest : List JLine)
    (h : isStrVal (jlookup fields "param") = false) :
    parseIndexResponse (JLine.good fields :: rest) = GoResult.crash := by
  unfold parseIndexResponse parseIndexLoop
  rw [assertString_crash _ h]
  rfl

/-- Witness for C9: a JSON-valid line `\x7b\x7d` with no `"param"` key. -/
theorem parseIndexResponse_wrong_shape_crash_witness :
    isStrVal (jlookup [] "param") = false ∧
      parseIndexResponse [JLine.good []] = GoResult.crash :=
  ⟨rfl, parseIndexResponse_wrong_shape_crash [] [] rfl⟩

/-- Whether an index line is a well-formed JSON object that matches zero
descriptors: its `"param"` key is a string other than `"10u"`/`"10v"`, or
its `"param"` is one of the two required fields but its `"levtype"` key
is a string other than `"sfc"` (the level check is only evaluated on
lines whose `param` matched, mirroring the Go short-circuit). -/
def noMatchLine : JLine → Bool
  | .bad => false
  | .good fields =>
    match jlookup fields "param" with
    | some (JValue.str p) =>
      if p = "10u" ∨ p = "10v" then
        match jlookup fields "levtype" with
        | some (JValue.str lev) => lev != "sfc"
        | _ => false
      else true
    | _ => false

/-- Claim C3 counterexample: An index document with one well-formed line
whose `param` is `"2t"` matches zero descriptors, yet `parseIndexResponse`
returns the empty descriptor set with no error — there is no
`EmptyIndexError`. -/
theorem parseIndexResponse_no_match_ok_empty :
    parseIndexResponse [JLine.good [("param", JValue.str "2t")]] =
      GoResult.ok [] := by
  rfl

theorem parseIndexLoop_no_match (lines : List JLine)
    (h : lines.all noMatchLine = true) :
    ∀ data, parseIndexLoop lines data = GoResult.ok data := by
  induction lines with
  | nil => intro data; rfl
  | cons l rest ih =>
    intro data
    rw [List.all_cons, Bool.and_eq_true] at h
    obtain ⟨hl, hrest⟩ := h
    match l with
    | .bad => simp [noMatchLine] at hl
    | .good fields =>
      unfold parseIndexLoop
      simp only [noMatchLine] at hl
      match hp : jlookup fields "param" with
      | none => rw [hp] at hl; simp at hl
      | some v =>
        rw [hp] at hl
        match v with
        | .null | .bool _ | .num _ | .arr _ | .obj _ => simp at hl
        | .str p =>
          simp only [assertString, GoResult.bind]
          have hl2 : (if p = "10u" ∨ p = "10v" then
              (match jlookup fields "levtype" with
                | some (JValue.str lev) => lev != "sfc"
                | _ => false)
              else true) = true := hl
          by_cases hmatch : p = "10u" ∨ p = "10v"
          · rw [if_pos hmatch]
            rw [if_pos hmatch] at hl2
            match hlev : jlookup fields "levtype" with
            | none => rw [hlev] at hl2; simp at hl2
            | some w =>
              rw [hlev] at hl2
              match w with
              | .null | .bool _ | .num _ | .arr _ | .obj _ => simp at hl2
              | .str lev =>
                simp only [assertString, GoResult.bind]
                have hl3 : (lev != "sfc") = true := hl2
                rw [bne_iff_ne] at hl3
                rw [if_neg hl3]
                exact ih hrest data
          · rw [if_neg hmatch]
            exact ih hrest data

/-- Claim C3 amended: When zero index lines match the two required fields,
`parseIndexResponse` does *not* fail: it returns the empty descriptor
list with a nil error (for every document of well-formed non-matching
lines), so the emptiness is not detected at the resolve step. -/
theorem parseIndexResponse_no_match_ok (lines : List JLine)
    (h : lines.all noMatchLine = true) :
    parseIndexResponse lines = GoResult.ok [] :=
  parseIndexLoop_no_match lines h []

/-- Witness for the amended C3 at a concrete two-line document: a line
with a foreign `param`, and a `"10u"` line at a non-surface `levtype`. -/
theorem parseIndexResponse_no_match_ok_witness :
    [JLine.good [("param", JValue.str "2d")],
      JLine.good [("param", JValue.str "10u"),
        ("levtype", JValue.str "pl")]].all noMatchLine = true ∧
      parseIndexResponse [JLine.good [("param", JValue.str "2d")],
        JLine.good [("param", JValue.str "10u"),
          ("levtype", JValue.str "pl")]] =
        GoResult.ok [] :=
  ⟨by decide, parseIndexResponse_no_match_ok _ (by decide)⟩

/-! ## Remote paths and `downloadAndSave` (src/unnamed/part_003, src/cache.go) -/

def bucketName : String := "ecmwf-open-data"

/-- Function `makeRelative`: `filepath.Join(date, batch, "ifs/0p25", prot,
date + batch[:2] + "0000-0h-" + prot + "-fc" + suffix)`.  `filepath.Join`
on the non-empty, slash-free components used here is plain
"/"-intercalation. -/
def makeRelative (date batch suffix prot : String) : String :=
  String.intercalate "/" [date, batch, "ifs/0p25", prot,
    date ++ batch.take 2 ++ "0000-0h-" ++ prot ++ "-fc" ++ suffix]

/-- Function `makeAbs`: `filepath.Join("/" + bucketName, relative)`. -/
def makeAbs (bucket date batch suffix prot : String) : String :=
  "/" ++ bucket ++ "/" ++ makeRelative date batch suffix prot

/-- Function `makeUrl`: `url.URL\x7bScheme: "https", Host: domain, Path: path\x7d.String()`.
For the paths this program builds — empty, or absolute starting with
`/` — the rendering is plain concatenation (an empty path contributes
nothing). -/
def makeUrl (domain path : String) : String :=
  "https://" ++ domain ++ path

/-- The batch-dependent `(objectName, IndexPath)` selection at the top of
`downloadAndSave`: `oper` for `00z/12z`, `scda` for `06z/18z`, and the
Go zero values (two empty strings) for any other batch — there is no
validation branch. -/
def downloadPaths (date batch : String) : String × String :=
  if batch = "00z" ∨ batch = "12z" then
    (makeRelative date batch ".grib2" "oper",
      makeAbs bucketName date batch ".index" "oper")
  else if batch = "06z" ∨ batch = "18z" then
    (makeRelative date batch ".grib2" "scda",
      makeAbs bucketName date batch ".index" "scda")
  else
    ("", "")

/-- Environment for the effectful steps of `downloadAndSave`: the HTTP
fetch of the index document, the JSON shape of each of its lines, the
GCS chunk fetch + external decode (`getGribData`), the JSON shape of
each decoder output, and the artifact write. -/
structure DownloadEnv where
  queryIndex : String → Except String String
  docLines : String → List JLine
  getGribData : List GribChunkInfo → String → String →
    Except String (List (String × String))
  rawJson : String → Option JValue
  writeFile : String → Except String Unit

/-- Go map read with the zero-value default: `gribJsonMap["10u"]` is `""`
when the key is absent. -/
def mapGetD : List (String × String) → String → String
  | [], _ => ""
  | (k, v) :: rest, key => if key = k then v else mapGetD rest key

/-- The body of `downloadAndSave` after the `(objectName, IndexPath)`
selection: query the index, parse it, fetch and decode the chunks,
unwrap `10u` and `10v`, and write the per-run artifact
`tmp/<date>-<batch>.json`.  Each stage's error is wrapped with the
stage's `fmt.Errorf` prefix. -/
def downloadRest (env : DownloadEnv) (date batch objectName indexUrl : String) :
    GoResult Unit :=
  match env.queryIndex indexUrl with
  | .error e => .err ("fail to query index: " ++ e)
  | .ok doc =>
    match parseIndexResponse (env.docLines doc) with
    | .err e => .err ("fail to parse index response: " ++ e)
    | .crash => .crash
    | .ok gribChunk =>
      match env.getGribData gribChunk bucketName objectName with
      | .error e => .err ("fail to get grib data: " ++ e)
      | .ok gribJsonMap =>
        match unwarpGribRawJsonValue (env.rawJson (mapGetD gribJsonMap "10u")) with
        | .err e => .err ("fail to unwrap 10u: " ++ e)
        | .crash => .crash
        | .ok _ =>
          match unwarpGribRawJsonValue (env.rawJson (mapGetD gribJsonMap "10v")) with
          | .err e => .err ("fail to unwrap 10v: " ++ e)
          | .crash => .crash
          | .ok _ =>
            match env.writeFile ("tmp/" ++ date ++ "-" ++ batch ++ ".json") with
            | .error e => .err ("fail to write file: " ++ e)
            | .ok _ => .ok ()

/-- Function `downloadAndSave` (src/cache.go): select the batch-dependent remote
paths, then run the acquisition pipeline. -/
def downloadAndSave (env : DownloadEnv) (date batch : String) : GoResult Unit :=
  downloadRest env date batch (downloadPaths date batch).1
    (makeUrl "storage.googleapis.com" (downloadPaths date batch).2)

/-- Claim C10: For every batch outside `{"00z","06z","12z","18z"}`,
`downloadAndSave` returns no parameter error: the remote object name and
index path are left as the empty string, the index query is issued
against the malformed URL `https://storage.googleapis.com`, and any
error the call returns is one of the downstream stage failures
(index fetch, index parse, grib fetch, unwrap, write). -/
theorem downloadAndSave_invalid_batch (env : DownloadEnv)
    (date batch : String) (e : String)
    (h00 : batch ≠ "00z") (h06 : batch ≠ "06z")
    (h12 : batch ≠ "12z") (h18 : batch ≠ "18z") :
    downloadPaths date batch = ("", "") ∧
    makeUrl "storage.googleapis.com" "" = "https://storage.googleapis.com" ∧
    downloadAndSave env date batch =
      downloadRest env date batch "" (makeUrl "storage.googleapis.com" "") ∧
    (downloadAndSave env date batch = GoResult.err e →
      (∃ s, e = "fail to query index: " ++ s) ∨
      (∃ s, e = "fail to parse index response: " ++ s) ∨
      (∃ s, e = "fail to get grib data: " ++ s) ∨
      (∃ s, e = "fail to unwrap 10u: " ++ s) ∨
      (∃ s, e = "fail to unwrap 10v: " ++ s) ∨
      (∃ s, e = "fail to write file: " ++ s)) := by
  have hp : downloadPaths date batch = ("", "") := by
    unfold downloadPaths
    rw [if_neg (by push_neg; exact ⟨h00, h12⟩),
      if_neg (by push_neg; exact ⟨h06, h18⟩)]
  have hd : downloadAndSave env date batch =
      downloadRest env date batch "" (makeUrl "storage.googleapis.com" "") := by
    unfold downloadAndSave
    rw [hp]
  refine ⟨hp, by decide, hd, ?_⟩
  intro h
  rw [hd] at h
  unfold downloadRest at h
  split at h
  · exact Or.inl ⟨_, by injection h with h2; exact h2.symm⟩
  · split at h
    · exact Or.inr (Or.inl ⟨_, by injection h with h2; exact h2.symm⟩)
    · exact GoResult.noConfusion h
    · split at h
      · exact Or.inr (Or.inr (Or.inl ⟨_, by injection h with h2; exact h2.symm⟩))
      · split at h
        · exact Or.inr (Or.inr (Or.inr (Or.inl
            ⟨_, by injection h with h2; exact h2.symm⟩)))
        · exact GoResult.noConfusion h
        · split at h
          · exact Or.inr (Or.inr (Or.inr (Or.inr (Or.inl
              ⟨_, by injection h with h2; exact h2.symm⟩))))
          · exact GoResult.noConfusion h
          · split at h
            · exact Or.inr (Or.inr (Or.inr (Or.inr (Or.inr
                ⟨_, by injection h with h2; exact h2.symm⟩))))
            · exact GoResult.noConfusion h

/-- An environment in which every effect fails (nothing reachable). -/
def offlineEnv : DownloadEnv :=
  ⟨fun _ => Except.error "no network", fun _ => [],
    fun _ _ _ => Except.error "no network", fun _ => none,
    fun _ => Except.error "no disk"⟩

/-- Witness for C10 at the concrete batch `"99z"`. -/
theorem downloadAndSave_invalid_batch_witness :
    ("99z" : String) ≠ "00z" ∧
      downloadPaths "20240101" "99z" = ("", "") ∧
      downloadAndSave offlineEnv "20240101" "99z" =
        downloadRest offlineEnv "20240101" "99z" ""
          (makeUrl "storage.googleapis.com" "") :=
  ⟨by decide,
    (downloadAndSave_invalid_batch offlineEnv "20240101" "99z" ""
      (by decide) (by decide) (by decide) (by decide)).1,
    (downloadAndSave_invalid_batch offlineEnv "20240101" "99z" ""
      (by decide) (by decide) (by decide) (by decide)).2.2.1⟩

/-! ## The two-phase read-through cache: `SingleQuery` (src/singleCoordAPI.go)
and `RangeQuery` (src/cache.go).

Both functions have the same shape: try to read and parse the per-run
artifact; on any failure run `downloadAndSave` once; then read again.
The two on-disk read attempts and the download outcome are supplied by an
environment (`readAndParseFile` — whose definition is not part of the
analysed sources — and `readAndParseRangeFile` only determine the read
outcomes, not the structure the claim is about).  The result is paired
with the number of `downloadAndSave` invocations the call performed. -/

structure SingleResponse where
  U : ℚ
  V : ℚ
  Status : ℤ
  Success : Bool
deriving DecidableEq

structure RangeResponse where
  U : List ℚ
  V : List ℚ
  Lats : List ℚ
  Lons : List ℚ
  Status : ℤ
  Success : Bool
deriving DecidableEq

/-- Outcomes of the two artifact reads and of the download, for one call. -/
structure ReadThroughEnv (α : Type) where
  firstRead : Except String α
  download : Except String Unit
  secondRead : Except String α

/-- The two distinguishable terminal error conditions of a read-through
call (`fmt.Errorf("download failed: %w")` and
`fmt.Errorf("read/parse failed after download: %w")`). -/
inductive CacheErr where
  | downloadFailed (e : String)
  | readParseFailedAfterDownload (e : String)
deriving DecidableEq

/-- Function `SingleQuery` (src/singleCoordAPI.go), instrumented with the number
of `downloadAndSave` calls it makes. -/
def SingleQuery (env : ReadThroughEnv SingleResponse) :
    Except CacheErr SingleResponse × ℕ :=
  match env.firstRead with
  | .ok response => (.ok response, 0)
  | .error _ =>
    match env.download with
    | .error e => (.error (.downloadFailed e), 1)
    | .ok _ =>
      match env.secondRead with
      | .error e => (.error (.readParseFailedAfterDownload e), 1)
      | .ok response => (.ok response, 1)

/-- Function `RangeQuery` (src/cache.go), instrumented with the number of
`downloadAndSave` calls it makes. -/
def RangeQuery (env : ReadThroughEnv RangeResponse) :
    Except CacheErr RangeResponse × ℕ :=
  match env.firstRead with
  | .ok response => (.ok response, 0)
  | .error _ =>
    match env.download with
    | .error e => (.error (.downloadFailed e), 1)
    | .ok _ =>
      match env.secondRead with
      | .error e => (.error (.readParseFailedAfterDownload e), 1)
      | .ok response => (.ok response, 1)

/-- Claim C2: `SingleQuery` and `RangeQuery` are two-phase read-through
caches: every call performs at most one acquisition; a failed
acquisition yields the `downloadFailed` condition carrying the download
error; a failed second read after a successful acquisition yields the
distinct `readParseFailedAfterDownload` condition; and the two conditions
are never equal. -/
theorem twoPhase_single_acquisition
    (envS : ReadThroughEnv SingleResponse) (envR : ReadThroughEnv RangeResponse)
    (e1 e2 e1' e3' d d' : String) :
    (SingleQuery envS).2 ≤ 1 ∧
    (RangeQuery envR).2 ≤ 1 ∧
    (envS.firstRead = .error e1 → envS.download = .error e2 →
      (SingleQuery envS).1 = .error (.downloadFailed e2)) ∧
    (envR.firstRead = .error e1' → envR.download = .ok () →
      envR.secondRead = .error e3' →
      (RangeQuery envR).1 = .error (.readParseFailedAfterDownload e3')) ∧
    CacheErr.downloadFailed d ≠ CacheErr.readParseFailedAfterDownload d' := by
  refine ⟨?_, ?_, ?_, ?_, by intro h; exact CacheErr.noConfusion h⟩
  · unfold SingleQuery
    rcases envS.firstRead with e | r
    · rcases envS.download with e' | u
      · exact le_refl 1
      · rcases envS.secondRead with e'' | r' <;> exact le_refl 1
    · exact Nat.zero_le 1
  · unfold RangeQuery
    rcases envR.firstRead with e | r
    · rcases envR.download with e' | u
      · exact le_refl 1
      · rcases envR.secondRead with e'' | r' <;> exact le_refl 1
    · exact Nat.zero_le 1
  · intro hf hd
    unfold SingleQuery
    rw [hf, hd]
  · intro hf hd hs
    unfold RangeQuery
    rw [hf, hd, hs]

/-- Witness for C2: a run whose artifact is absent and whose download
fails, and one whose artifact stays unreadable after a successful
download. -/
theorem twoPhase_single_acquisition_witness :
    (SingleQuery ⟨Except.error "missing", Except.error "net down",
        Except.error "missing"⟩).2 ≤ 1 ∧
    (SingleQuery ⟨Except.error "missing", Except.error "net down",
        Except.error "missing"⟩).1 =
      Except.error (CacheErr.downloadFailed "net down") ∧
    (RangeQuery ⟨Except.error "missing", Except.ok (),
        Except.error "corrupt"⟩).1 =
      Except.error (CacheErr.readParseFailedAfterDownload "corrupt") :=
  ⟨(twoPhase_single_acquisition
      ⟨Except.error "missing", Except.error "net down", Except.error "missing"⟩
      ⟨Except.error "missing", Except.ok (), Except.error "corrupt"⟩
      "" "" "" "" "" "").1,
    (twoPhase_single_acquisition
      ⟨Except.error "missing", Except.error "net down", Except.error "missing"⟩
      ⟨Except.error "missing", Except.ok (), Except.error "corrupt"⟩
      "missing" "net down" "missing" "corrupt" "" "").2.2.1 rfl rfl,
    (twoPhase_single_acquisition
      ⟨Except.error "missing", Except.error "net down", Except.error "missing"⟩
      ⟨Except.error "missing", Except.ok (), Except.error "corrupt"⟩
      "missing" "net down" "missing" "corrupt" "" "").2.2.2.1 rfl rfl rfl⟩

/-! ## Calendar dates: `time.Parse("20060102", ·)`, `AddDate(0,0,1)`,
`Format`, and `generateDateRange` (src/unnamed/part_002). -/

/-- A Go `time.Time` restricted to its calendar-day part, which is all
`generateDateRange` uses. -/
structure GoDate where
  y : ℕ
  m : ℕ
  d : ℕ
deriving DecidableEq

def isLeap (y : ℕ) : Bool :=
  y % 4 == 0 && (y % 100 != 0 || y % 400 == 0)

def daysInMonth (y m : ℕ) : ℕ :=
  if m = 2 then (if isLeap y then 29 else 28)
  else if m = 4 ∨ m = 6 ∨ m = 9 ∨ m = 11 then 30
  else 31

/-- The dates `time.Parse("20060102", ·)` accepts. -/
def ValidDate (t : GoDate) : Prop :=
  1 ≤ t.m ∧ t.m ≤ 12 ∧ 1 ≤ t.d ∧ t.d ≤ daysInMonth t.y t.m

def digitVal (c : Char) : Option ℕ :=
  if c.isDigit then some (c.toNat - 48) else none

def digitsToNat (cs : List Char) : Option ℕ :=
  cs.foldl (fun acc c =>
    match acc, digitVal c with
    | some n, some d => some (n * 10 + d)
    | _, _ => none) (some 0)

/-- Go `time.Parse("20060102", s)`: exactly eight digits, month in `1..12`,
day in `1..` the month's length (leap years included). -/
def parseDate (s : String) : Option GoDate :=
  match s.data with
  | [y1, y2, y3, y4, m1, m2, d1, d2] =>
    match digitsToNat [y1, y2, y3, y4], digitsToNat [m1, m2],
        digitsToNat [d1, d2] with
    | some y, some m, some d =>
      if 1 ≤ m ∧ m ≤ 12 ∧ 1 ≤ d ∧ d ≤ daysInMonth y m then
        some ⟨y, m, d⟩
      else none
    | _, _, _ => none
  | _ => none

def pad2 (n : ℕ) : String :=
  if n < 10 then "0" ++ toString n else toString n

def pad4 (n : ℕ) : String :=
  if n < 10 then "000" ++ toString n
  else if n < 100 then "00" ++ toString n
  else if n < 1000 then "0" ++ toString n
  else toString n

/-- Go `t.Format("20060102")`. -/
def formatDate (t : GoDate) : String :=
  pad4 t.y ++ pad2 t.m ++ pad2 t.d

/-- Go `start.After(end)` for two wall-clock midnights: lexicographic
comparison of the calendar day. -/
def dateAfter (a b : GoDate) : Bool :=
  decide (b.y < a.y ∨ (b.y = a.y ∧ (b.m < a.m ∨ (b.m = a.m ∧ b.d < a.d))))

/-- Go `current.AddDate(0, 0, 1)` on a valid date: the next calendar day. -/
def nextDay (t : GoDate) : GoDate :=
  if t.d < daysInMonth t.y t.m then ⟨t.y, t.m, t.d + 1⟩
  else if t.m < 12 then ⟨t.y, t.m + 1, 1⟩
  else ⟨t.y + 1, 1, 1⟩

/-- A measure that strictly increases along `nextDay` and is monotone
with the calendar order on valid dates (`50 ⬝ 12 + 31 < 1000`). -/
def dateMeasure (t : GoDate) : ℕ :=
  1000 * t.y + 50 * t.m + t.d

/-- The generation loop `for !current.After(end)` of `generateDateRange`,
expressed with explicit fuel.  `generateDateRange` supplies fuel
`dateMeasure end + 1 - dateMeasure start`, which bounds the iteration
count because `dateMeasure` strictly increases along `nextDay` while the
guard keeps it at most `dateMeasure end` (see `dateLoop_fuel_stable`). -/
def dateLoop : ℕ → GoDate → GoDate → List String
  | 0, _, _ => []
  | fuel + 1, current, endD =>
    if dateAfter current endD then []
    else formatDate current :: dateLoop fuel (nextDay current) endD

/-- Function `generateDateRange` (src/unnamed/part_002): parse both dates, reject
`start.After(end)`, and collect every day from `start` to `end`
inclusive in ascending order. -/
def generateDateRange (startDate endDate : String) :
    Except String (List String) :=
  match parseDate startDate with
  | none => .error ("invalid start_date format: " ++ startDate)
  | some start =>
    match parseDate endDate with
    | none => .error ("invalid end_date format: " ++ endDate)
    | some endD =>
      if dateAfter start endD then
        .error ("start_date (" ++ startDate ++
          ") must be before or equal to end_date (" ++ endDate ++ ")")
      else
        .ok (dateLoop (dateMeasure endD + 1 - dateMeasure start) start endD)

theorem daysInMonth_le31 (y m : ℕ) : daysInMonth y m ≤ 31 := by
  unfold daysInMonth
  split_ifs <;> norm_num

theorem daysInMonth_pos (y m : ℕ) : 1 ≤ daysInMonth y m := by
  unfold daysInMonth
  split_ifs <;> norm_num

theorem parseDate_valid (s : String) (t : GoDate)
    (h : parseDate s = some t) : ValidDate t := by
  unfold parseDate at h
  split at h
  · split at h
    · split at h
      · injection h with h2
        subst h2
        rename_i hc
        exact hc
      · exact Option.noConfusion h
    · exact Option.noConfusion h
  · exact Option.noConfusion h

theorem validDate_nextDay (t : GoDate) (hv : ValidDate t) :
    ValidDate (nextDay t) := by
  obtain ⟨h1, h2, h3, h4⟩ := hv
  unfold nextDay
  split_ifs with hd hm
  · exact ⟨h1, h2, by show 1 ≤ t.d + 1; omega,
      by show t.d + 1 ≤ daysInMonth t.y t.m; omega⟩
  · exact ⟨by show 1 ≤ t.m + 1; omega, by show t.m + 1 ≤ 12; omega,
      le_refl 1, by show 1 ≤ daysInMonth t.y (t.m + 1); exact daysInMonth_pos _ _⟩
  · exact ⟨le_refl 1, by show (1 : ℕ) ≤ 12; norm_num, le_refl 1,
      by show 1 ≤ daysInMonth (t.y + 1) 1; exact daysInMonth_pos _ _⟩

theorem dateMeasure_lt_nextDay (t : GoDate) (hv : ValidDate t) :
    dateMeasure t < dateMeasure (nextDay t) := by
  obtain ⟨h1, h2, h3, h4⟩ := hv
  have h31 := daysInMonth_le31 t.y t.m
  unfold nextDay
  split_ifs with hd hm <;> unfold dateMeasure <;> simp <;> omega

theorem dateAfter_false_le (a b : GoDate) (ha : ValidDate a)
    (hb : ValidDate b) (h : dateAfter a b = false) :
    dateMeasure a ≤ dateMeasure b := by
  unfold dateAfter at h
  rw [decide_eq_false_iff_not] at h
  obtain ⟨ha1, ha2, ha3, ha4⟩ := ha
  obtain ⟨hb1, hb2, hb3, hb4⟩ := hb
  have ha31 := daysInMonth_le31 a.y a.m
  have hb31 := daysInMonth_le31 b.y b.m
  unfold dateMeasure
  omega

theorem dateAfter_true_of_lt (a b : GoDate) (ha : ValidDate a)
    (hb : ValidDate b) (h : dateMeasure b < dateMeasure a) :
    dateAfter a b = true := by
  unfold dateAfter
  rw [decide_eq_true_eq]
  obtain ⟨ha1, ha2, ha3, ha4⟩ := ha
  obtain ⟨hb1, hb2, hb3, hb4⟩ := hb
  have ha31 := daysInMonth_le31 a.y a.m
  have hb31 := daysInMonth_le31 b.y b.m
  unfold dateMeasure at h
  omega

/-- The fuel `generateDateRange` passes to `dateLoop` is sufficient: with
at least `dateMeasure end + 1 - dateMeasure cur` fuel, one more unit of
fuel never changes the result, so the fuel-indexed loop agrees with Go's
unbounded `for !current.After(end)` loop. -/
theorem dateLoop_fuel_stable (fuel : ℕ) :
    ∀ cur endD, ValidDate cur → ValidDate endD →
      dateMeasure endD + 1 - dateMeasure cur ≤ fuel →
      dateLoop fuel cur endD = dateLoop (fuel + 1) cur endD := by
  induction fuel with
  | zero =>
    intro cur endD hc he hle
    have hafter : dateAfter cur endD = true :=
      dateAfter_true_of_lt cur endD hc he (by omega)
    simp [dateLoop, hafter]
  | succ n ih =>
    intro cur endD hc he hle
    by_cases ha : dateAfter cur endD = true
    · simp [dateLoop, ha]
    · have hle2 : dateMeasure cur ≤ dateMeasure endD :=
        dateAfter_false_le cur endD hc he (Bool.not_eq_true _ ▸ ha)
      have hstep := dateMeasure_lt_nextDay cur hc
      show (if dateAfter cur endD then [] else _) =
        (if dateAfter cur endD then [] else _)
      rw [if_neg ha, if_neg ha]
      rw [ih (nextDay cur) endD (validDate_nextDay cur hc) he (by omega)]

theorem dateLoop_cons (fuel : ℕ) (cur endD : GoDate)
    (hfuel : 1 ≤ fuel) (ha : ¬ dateAfter cur endD = true) :
    dateLoop fuel cur endD =
      formatDate cur :: dateLoop (fuel - 1) (nextDay cur) endD := by
  obtain ⟨n, rfl⟩ : ∃ n, fuel = n + 1 := ⟨fuel - 1, by omega⟩
  show (if dateAfter cur endD then [] else _) = _
  rw [if_neg ha]
  simp

theorem generateDateRange_ok_ne_nil (sd ed : String) (dates : List String)
    (h : generateDateRange sd ed = Except.ok dates) : dates ≠ [] := by
  unfold generateDateRange at h
  split at h
  · exact Except.noConfusion h
  · rename_i start hps
    split at h
    · exact Except.noConfusion h
    · rename_i endD hpe
      split at h
      · exact Except.noConfusion h
      · rename_i ha
        injection h with h2
        subst h2
        have hvs := parseDate_valid sd start hps
        have hve := parseDate_valid ed endD hpe
        have hle : dateMeasure start ≤ dateMeasure endD :=
          dateAfter_false_le start endD hvs hve (Bool.not_eq_true _ ▸ ha)
        rw [dateLoop_cons _ _ _ (by omega) ha]
        exact List.cons_ne_nil _ _

/-! ## `DateRangeQuery` (src/unnamed/part_002) -/

structure DateRangeAPIParams where
  Lat : ℚ
  Lon : ℚ
  StartDate : String
  EndDate : String
  Batch : String

structure DateRangeResponse where
  Dates : List String
  U : List ℚ
  V : List ℚ
  Status : ℤ
  Success : Bool

/-- The per-date load outcome (`getOrLoadFileCache`, keyed by the
artifact path), supplied as an environment: `(U, V)` arrays on success. -/
structure DateRangeEnv where
  load : String → Except String (List ℚ × List ℚ)

/-- Go `filepath.Join("tmp", date + "-" + batch + ".json")`. -/
def dateFilePath (date batch : String) : String :=
  "tmp/" ++ date ++ "-" ++ batch ++ ".json"

/-- One iteration of the `DateRangeQuery` date loop, merged over its
three branches: a failed load or an out-of-bounds index contributes the
sentinel `(0, 0)`, a successful in-bounds load contributes
`(cache.U[valueIndex], cache.V[valueIndex])`.  The date itself is
appended in every branch. -/
def dateEntry (env : DateRangeEnv) (batch : String) (valueIndex : ℤ)
    (date : String) : ℚ × ℚ :=
  match env.load (dateFilePath date batch) with
  | .error _ => (0, 0)
  | .ok (u, v) =>
    if valueIndex < 0 ∨ (u.length : ℤ) ≤ valueIndex ∨
        (v.length : ℤ) ≤ valueIndex then (0, 0)
    else (u.getD valueIndex.toNat 0, v.getD valueIndex.toNat 0)

/-- Whether the date's iteration takes one of the two
failure branches (load error, or index out of the record's bounds). -/
def dateFailed (env : DateRangeEnv) (batch : String) (valueIndex : ℤ)
    (date : String) : Bool :=
  match env.load (dateFilePath date batch) with
  | .error _ => true
  | .ok (u, v) =>
    decide (valueIndex < 0 ∨ (u.length : ℤ) ≤ valueIndex ∨
      (v.length : ℤ) ≤ valueIndex)

/-- The `for _, date := range dates` loop of `DateRangeQuery`,
accumulating `resultDates`, `uValues`, `vValues` by appending. -/
def dateRangeLoop (env : DateRangeEnv) (batch : String) (valueIndex : ℤ) :
    List String → List String × List ℚ × List ℚ →
      List String × List ℚ × List ℚ
  | [], acc => acc
  | date :: rest, acc =>
    dateRangeLoop env batch valueIndex rest
      (acc.1 ++ [date],
        acc.2.1 ++ [(dateEntry env batch valueIndex date).1],
        acc.2.2 ++ [(dateEntry env batch valueIndex date).2])

def dateRangeFailResponse : DateRangeResponse := ⟨[], [], [], 400, false⟩

/-- Function `DateRangeQuery` (src/unnamed/part_002): one index computation, one
date-range generation, then the per-date loop; fails afterwards only when
`resultDates` stayed empty. -/
def DateRangeQuery (env : DateRangeEnv) (params : DateRangeAPIParams) :
    Except String DateRangeResponse :=
  match GetIndexForCoord params.Lat params.Lon with
  | .error e => .error ("failed to get index for coord: " ++ e)
  | .ok valueIndex =>
    match generateDateRange params.StartDate params.EndDate with
    | .error e => .error ("failed to generate date range: " ++ e)
    | .ok dates =>
      match dateRangeLoop env params.Batch valueIndex dates ([], [], []) with
      | (resultDates, uValues, vValues) =>
        if resultDates = [] then
          .error ("no data found in date range " ++ params.StartDate ++
            " to " ++ params.EndDate)
        else
          .ok ⟨resultDates, uValues, vValues, 200, true⟩

theorem dateRangeLoop_eq (env : DateRangeEnv) (batch : String)
    (valueIndex : ℤ) (dates : List String) :
    ∀ rd us vs, dateRangeLoop env batch valueIndex dates (rd, us, vs) =
      (rd ++ dates,
        us ++ dates.map (fun d => (dateEntry env batch valueIndex d).1),
        vs ++ dates.map (fun d => (dateEntry env batch valueIndex d).2)) := by
  induction dates with
  | nil => intro rd us vs; simp [dateRangeLoop]
  | cons date rest ih =>
    intro rd us vs
    show dateRangeLoop env batch valueIndex rest
      (rd ++ [date], us ++ [_], vs ++ [_]) = _
    rw [ih]
    simp

theorem dateRangeQuery_ok_aux (env : DateRangeEnv)
    (params : DateRangeAPIParams) (idx : ℤ) (dates : List String)
    (hidx : GetIndexForCoord params.Lat params.Lon = Except.ok idx)
    (hdr : generateDateRange params.StartDate params.EndDate =
      Except.ok dates) :
    DateRangeQuery env params = Except.ok
      ⟨dates,
        dates.map (fun d => (dateEntry env params.Batch idx d).1),
        dates.map (fun d => (dateEntry env params.Batch idx d).2),
        200, true⟩ := by
  unfold DateRangeQuery
  simp only [hidx, hdr]
  rw [dateRangeLoop_eq]
  simp only [List.nil_append]
  rw [if_neg (generateDateRange_ok_ne_nil _ _ _ hdr)]

theorem dateEntry_failed (env : DateRangeEnv) (batch : String)
    (idx : ℤ) (date : String)
    (h : dateFailed env batch idx date = true) :
    dateEntry env batch idx date = (0, 0) := by
  unfold dateFailed at h
  unfold dateEntry
  split at h
  · rfl
  · rw [decide_eq_true_eq] at h
    rw [if_pos h]

/-- Claim C6: In the multi-date series, a per-date failure — load error or
mapped index out of the record's bounds (`dateFailed`) — never aborts the
call: the query still succeeds, every generated date appears in order,
and the failing date contributes the sentinel zero entry; with the date
list non-empty the `"no data found"` failure is unreachable, so the call
as a whole could only fail when no date produced a result. -/
theorem dateRangeQuery_failure_zeros (env : DateRangeEnv)
    (params : DateRangeAPIParams) (idx : ℤ) (dates : List String)
    (date : String)
    (hidx : GetIndexForCoord params.Lat params.Lon = Except.ok idx)
    (hdr : generateDateRange params.StartDate params.EndDate =
      Except.ok dates)
    (_hmem : date ∈ dates)
    (hfail : dateFailed env params.Batch idx date = true) :
    DateRangeQuery env params = Except.ok
      ⟨dates,
        dates.map (fun d => (dateEntry env params.Batch idx d).1),
        dates.map (fun d => (dateEntry env params.Batch idx d).2),
        200, true⟩ ∧
      dateEntry env params.Batch idx date = (0, 0) ∧
      dates ≠ [] :=
  ⟨dateRangeQuery_ok_aux env params idx dates hidx hdr,
    dateEntry_failed env params.Batch idx date hfail,
    generateDateRange_ok_ne_nil _ _ _ hdr⟩

/-- An environment in which every artifact load fails. -/
def corruptEnv : DateRangeEnv := ⟨fun _ => Except.error "corrupt artifact"⟩

/-- Witness for C6: a three-day series in which every load fails still
succeeds, with zero sentinels everywhere. -/
theorem dateRangeQuery_failure_zeros_witness :
    GetIndexForCoord 0 0 = Except.ok 519120 ∧
      generateDateRange "20240101" "20240103" =
        Except.ok ["20240101", "20240102", "20240103"] ∧
      "20240102" ∈ ["20240101", "20240102", "20240103"] ∧
      dateFailed corruptEnv "00z" 519120 "20240102" = true ∧
      DateRangeQuery corruptEnv ⟨0, 0, "20240101", "20240103", "00z"⟩ =
        Except.ok ⟨["20240101", "20240102", "20240103"],
          [0, 0, 0], [0, 0, 0], 200, true⟩ ∧
      dateEntry corruptEnv "00z" 519120 "20240102" = (0, 0) := by
  have h := dateRangeQuery_failure_zeros corruptEnv
    ⟨0, 0, "20240101", "20240103", "00z"⟩ 519120
    ["20240101", "20240102", "20240103"] "20240102"
    getIndexForCoord_zero_zero rfl (by decide) rfl
  exact ⟨getIndexForCoord_zero_zero, rfl, by decide, rfl, h.1, h.2.1⟩

/-- Propagation of a `generateDateRange` failure through `DateRangeQuery`. -/
theorem dateRangeQuery_gen_error (env : DateRangeEnv)
    (params : DateRangeAPIParams) (idx : ℤ) (msg : String)
    (hidx : GetIndexForCoord params.Lat params.Lon = Except.ok idx)
    (hgen : generateDateRange params.StartDate params.EndDate =
      Except.error msg) :
    DateRangeQuery env params =
      Except.error ("failed to generate date range: " ++ msg) := by
  unfold DateRangeQuery
  rw [hidx, hgen]

/-- Claim C4 counterexample: Supplying the two date parameters in swapped
order does not reproduce the three-date result: with start `"20240103"`
and end `"20240101"` the call fails with the
`start_date must be before or equal to end_date` parameter error. -/
theorem dateRangeQuery_swapped_fails :
    DateRangeQuery corruptEnv ⟨0, 0, "20240103", "20240101", "00z"⟩ =
      Except.error ("failed to generate date range: " ++
        ("start_date (20240103) must be before or equal to " ++
          "end_date (20240101)")) :=
  dateRangeQuery_gen_error corruptEnv
    ⟨0, 0, "20240103", "20240101", "00z"⟩ 519120 _
    getIndexForCoord_zero_zero rfl

/-- Claim C4 amended: For start `"20240101"` and end `"20240103"` (any
in-range coordinate, any batch, any load outcomes), `DateRangeQuery`
produces exactly the three dates `20240101, 20240102, 20240103` in
ascending calendar order; with the two date parameters swapped it does
not produce that result but fails with the
`start_date must be before or equal to end_date` error. -/
theorem dateRangeQuery_three_days (env : DateRangeEnv) (lat lon : ℚ)
    (batch : String) (h0 : -90 ≤ lat) (h1 : lat ≤ 90) :
    (∃ us vs, DateRangeQuery env ⟨lat, lon, "20240101", "20240103", batch⟩ =
      Except.ok ⟨["20240101", "20240102", "20240103"], us, vs, 200, true⟩) ∧
    DateRangeQuery env ⟨lat, lon, "20240103", "20240101", batch⟩ =
      Except.error ("failed to generate date range: " ++
        ("start_date (20240103) must be before or equal to " ++
          "end_date (20240101)")) := by
  obtain ⟨k, hk, _, _⟩ := getIndexForCoord_ok_aux lat lon h0 h1
  constructor
  · exact ⟨_, _, dateRangeQuery_ok_aux env
      ⟨lat, lon, "20240101", "20240103", batch⟩ k
      ["20240101", "20240102", "20240103"] hk rfl⟩
  · exact dateRangeQuery_gen_error env
      ⟨lat, lon, "20240103", "20240101", batch⟩ k _ hk rfl

/-- Witness for the amended C4 at the coordinate `(0, 0)` and batch
`"00z"`, with every load failing. -/
theorem dateRangeQuery_three_days_witness :
    (-90 : ℚ) ≤ 0 ∧ (0 : ℚ) ≤ 90 ∧
      ((∃ us vs, DateRangeQuery corruptEnv
          ⟨0, 0, "20240101", "20240103", "00z"⟩ =
        Except.ok ⟨["20240101", "20240102", "20240103"], us, vs,
          200, true⟩) ∧
      DateRangeQuery corruptEnv ⟨0, 0, "20240103", "20240101", "00z"⟩ =
        Except.error ("failed to generate date range: " ++
          ("start_date (20240103) must be before or equal to " ++
            "end_date (20240101)"))) :=
  ⟨by norm_num, by norm_num,
    dateRangeQuery_three_days corruptEnv 0 0 "00z" (by norm_num) (by norm_num)⟩

/-! ## The Working-Set Memory Cache: `fileCache` / `getOrLoadFileCache`
(src/unnamed/part_002).

The Go map `fileCache` is modelled as an association list with distinct
keys (insertion replaces), its `len` as the list length.  The on-disk
load (`loadFileToCache`) is supplied as an outcome. -/

structure FileCache where
  U : List ℚ
  V : List ℚ

def maxCacheSize : ℕ := 100

/-- Go map lookup `fileCache[filePath]`. -/
def lookupFC : List (String × FileCache) → String → Option FileCache
  | [], _ => none
  | (k, v) :: rest, key => if key = k then some v else lookupFC rest key

/-- Go map insert `fileCache[filePath] = cache` (replaces an existing
key, so the length counts distinct keys). -/
def insertFC (cache : List (String × FileCache)) (key : String)
    (c : FileCache) : List (String × FileCache) :=
  (key, c) :: cache.filter (fun p => p.1 != key)

/-- Function `getOrLoadFileCache` (src/unnamed/part_002): return a hit
immediately; on a miss, load, then — `if len(fileCache) >= maxCacheSize`
— clear the whole map before inserting the new entry.  Returns the
result together with the cache state after the call. -/
def getOrLoadFileCache (cache : List (String × FileCache))
    (filePath : String) (load : Except String FileCache) :
    Except String FileCache × List (String × FileCache) :=
  match lookupFC cache filePath with
  | some c => (.ok c, cache)
  | none =>
    match load with
    | .error e => (.error e, cache)
    | .ok c =>
      if maxCacheSize ≤ cache.length then (.ok c, insertFC [] filePath c)
      else (.ok c, insertFC cache filePath c)

/-- Inserting a sequence of keys (each with a successful load given by
`f`) into a cache, via `getOrLoadFileCache`. -/
def insertAllFC (cache : List (String × FileCache)) (ks : List String)
    (f : String → FileCache) : List (String × FileCache) :=
  ks.foldl (fun acc k => (getOrLoadFileCache acc k (.ok (f k))).2) cache

theorem lookupFC_eq_none_iff (cache : List (String × FileCache))
    (k : String) : lookupFC cache k = none ↔ ∀ p ∈ cache, p.1 ≠ k := by
  induction cache with
  | nil => simp [lookupFC]
  | cons p rest ih =>
    obtain ⟨pk, pv⟩ := p
    unfold lookupFC
    by_cases h : k = pk
    · subst h
      simp
    · rw [if_neg h, ih]
      constructor
      · intro hall q hq
        rcases List.mem_cons.mp hq with rfl | hq2
        · exact fun hc => h hc.symm
        · exact hall q hq2
      · intro hall q hq
        exact hall q (List.mem_cons_of_mem _ hq)

theorem insertFC_fresh (cache : List (String × FileCache)) (k : String)
    (c : FileCache) (h : lookupFC cache k = none) :
    insertFC cache k c = (k, c) :: cache := by
  unfold insertFC
  congr 1
  rw [List.filter_eq_self]
  intro p hp
  have := (lookupFC_eq_none_iff cache k).mp h p hp
  simpa using this

theorem insertAllFC_fresh (ks : List String) (f : String → FileCache) :
    ∀ cache, ks.Nodup → (∀ k ∈ ks, lookupFC cache k = none) →
      cache.length + ks.length ≤ maxCacheSize →
      insertAllFC cache ks f =
        (ks.reverse.map (fun k => (k, f k))) ++ cache := by
  induction ks with
  | nil => intro cache _ _ _; simp [insertAllFC]
  | cons k rest ih =>
    intro cache hnodup hfresh hlen
    have hmiss : lookupFC cache k = none := hfresh k (List.mem_cons_self _ _)
    have hnotfull : ¬ maxCacheSize ≤ cache.length := by
      simp only [List.length_cons] at hlen
      omega
    show insertAllFC ((getOrLoadFileCache cache k (.ok (f k))).2) rest f = _
    have hstep : (getOrLoadFileCache cache k (.ok (f k))).2 =
        (k, f k) :: cache := by
      unfold getOrLoadFileCache
      simp only [hmiss]
      rw [if_neg hnotfull]
      exact insertFC_fresh cache k (f k) hmiss
    rw [hstep]
    rw [ih ((k, f k) :: cache) (List.Nodup.of_cons hnodup) ?fresh ?len]
    · simp
    case fresh =>
      intro k2 hk2
      have hne : k2 ≠ k := by
        intro hc
        subst hc
        exact (List.nodup_cons.mp hnodup).1 hk2
      unfold lookupFC
      rw [if_neg hne]
      exact hfresh k2 (List.mem_cons_of_mem _ hk2)
    case len =>
      simp only [List.length_cons] at hlen ⊢
      omega

theorem lookupFC_map_reverse (ks : List String) (f : String → FileCache)
    (k : String) (h : k ∉ ks) :
    lookupFC (ks.reverse.map (fun k2 => (k2, f k2))) k = none := by
  rw [lookupFC_eq_none_iff]
  intro p hp
  obtain ⟨k2, hk2, rfl⟩ := List.mem_map.mp hp
  have : k2 ∈ ks := List.mem_reverse.mp hk2
  intro hc
  exact h (hc ▸ this)

/-- Claim C7: Working-set cache eviction is whole-cache clear: when an
insert finds the cache at (or beyond) `maxCacheSize` entries, the whole
map is cleared before inserting, leaving exactly the new entry;
consequently inserting `maxCacheSize + 1` distinct keys into the empty
cache leaves exactly the most recently inserted key; and a call never
grows a cache that respects the bound beyond `maxCacheSize` entries. -/
theorem fileCache_whole_clear (cache : List (String × FileCache))
    (filePath : String) (c : FileCache) (ks : List String) (k : String)
    (f : String → FileCache) (cache2 : List (String × FileCache))
    (path2 : String) (load2 : Except String FileCache)
    (hmiss : lookupFC cache filePath = none)
    (hfull : maxCacheSize ≤ cache.length)
    (hnodup : (ks ++ [k]).Nodup)
    (hlen : ks.length = maxCacheSize)
    (hbound : cache2.length ≤ maxCacheSize) :
    (getOrLoadFileCache cache filePath (.ok c)).2 = [(filePath, c)] ∧
    insertAllFC [] (ks ++ [k]) f = [(k, f k)] ∧
    ((getOrLoadFileCache cache2 path2 load2).2).length ≤ maxCacheSize := by
  refine ⟨?_, ?_, ?_⟩
  · unfold getOrLoadFileCache
    simp only [hmiss]
    rw [if_pos hfull]
    rfl
  · have hnodup1 : ks.Nodup := (List.nodup_append.mp hnodup).1
    have hknotin : k ∉ ks := by
      intro hc
      exact (List.nodup_append.mp hnodup).2.2 hc (List.mem_singleton_self k)
    have h100 : insertAllFC [] ks f =
        (ks.reverse.map (fun k2 => (k2, f k2))) ++ [] := by
      apply insertAllFC_fresh ks f [] hnodup1
      · intro k2 _
        rfl
      · simp [hlen]
    unfold insertAllFC
    rw [List.foldl_append]
    show (getOrLoadFileCache (insertAllFC [] ks f) k (.ok (f k))).2 = _
    rw [h100, List.append_nil]
    have hmiss2 := lookupFC_map_reverse ks f k hknotin
    have hlen2 : (ks.reverse.map (fun k2 => (k2, f k2))).length =
        maxCacheSize := by
      simp [hlen]
    unfold getOrLoadFileCache
    simp only [hmiss2]
    rw [if_pos (le_of_eq hlen2.symm)]
    rfl
  · unfold getOrLoadFileCache
    cases hl : lookupFC cache2 path2 with
    | some c2 =>
      simp only [hl]
      exact hbound
    | none =>
      simp only [hl]
      cases load2 with
      | error e => exact hbound
      | ok c2 =>
        split_ifs with hfull2
        · show (insertFC [] path2 c2).length ≤ maxCacheSize
          unfold insertFC
          simp [maxCacheSize]
        · show (insertFC cache2 path2 c2).length ≤ maxCacheSize
          unfold insertFC
          have := List.length_filter_le (fun p => p.1 != path2) cache2
          simp only [List.length_cons]
          omega

/-- A canonical supply of `n` pairwise distinct keys. -/
def keyOfNat (n : ℕ) : String := String.mk (List.replicate n 'a')

theorem keyOfNat_inj : Function.Injective keyOfNat := by
  intro a b h
  have h2 := congrArg (fun s => s.data.length) h
  simpa [keyOfNat] using h2

/-- Witness for C7: a full 100-entry cache cleared by one insert, and
101 distinct keys inserted into the empty cache. -/
theorem fileCache_whole_clear_witness :
    lookupFC ((List.range maxCacheSize).map
        (fun n => (keyOfNat n, FileCache.mk [] []))) (keyOfNat maxCacheSize) =
      none ∧
    (getOrLoadFileCache ((List.range maxCacheSize).map
        (fun n => (keyOfNat n, FileCache.mk [] [])))
      (keyOfNat maxCacheSize) (.ok (FileCache.mk [] []))).2 =
      [(keyOfNat maxCacheSize, FileCache.mk [] [])] ∧
    insertAllFC [] (((List.range maxCacheSize).map keyOfNat) ++
        [keyOfNat maxCacheSize]) (fun _ => FileCache.mk [] []) =
      [(keyOfNat maxCacheSize, FileCache.mk [] [])] := by
  have hmiss : lookupFC ((List.range maxCacheSize).map
      (fun n => (keyOfNat n, FileCache.mk [] []))) (keyOfNat maxCacheSize) =
      none := by
    rw [lookupFC_eq_none_iff]
    intro p hp
    obtain ⟨n, hn, rfl⟩ := List.mem_map.mp hp
    intro hc
    have := keyOfNat_inj hc
    subst this
    exact absurd (List.mem_range.mp hn) (lt_irrefl _)
  have hnodup : (((List.range maxCacheSize).map keyOfNat) ++
      [keyOfNat maxCacheSize]).Nodup := by
    have : ((List.range maxCacheSize).map keyOfNat) ++
        [keyOfNat maxCacheSize] = (List.range (maxCacheSize + 1)).map keyOfNat := by
      rw [List.range_succ, List.map_append]
      rfl
    rw [this]
    exact (List.nodup_range _).map keyOfNat_inj
  have h := fileCache_whole_clear
    ((List.range maxCacheSize).map (fun n => (keyOfNat n, FileCache.mk [] [])))
    (keyOfNat maxCacheSize) (FileCache.mk [] [])
    ((List.range maxCacheSize).map keyOfNat) (keyOfNat maxCacheSize)
    (fun _ => FileCache.mk [] []) [] "" (.error "")
    hmiss (by simp) hnodup (by simp) (by simp [maxCacheSize])
  exact ⟨hmiss, h.1, h.2.1⟩

end Griber
